import Mathlib

/-! Verification of the UXSenti cross-lingual / monolingual language-model
training scripts (src/cross_lm.py, src/mono_lm.py).

The scripts are shallowly embedded: machine floats become rationals (with an
explicit four-point extension for plus/minus infinity and NaN where the code
compares possibly non-finite losses), PyTorch tensors become nested lists of
rationals, the random draws of a training step become explicit inputs (u for
the uniform mixture draw, z for the standard normal draw), and the opaque
torch.save / torch.load pair becomes the identity on an explicit snapshot
value. -/

namespace UXSenti

/-! ## Sequence-length sampling (cross_lm.py 248-249, mono_lm.py 241-242) -/

/-- Python int() applied to a real value: truncation toward zero. -/
def truncTowardZero (q : ℚ) : ℤ := if 0 ≤ q then ⌊q⌋ else ⌈q⌉

/-- The sampled sequence length of one training step, from
cross_lm.py lines 248-249 (identically mono_lm.py 241-242):
bptt = args.bptt if np.random.random() < 0.95 else args.bptt / 2.;
seq_len = max(5, int(np.random.normal(bptt, 5))).
u is the uniform draw in [0,1), z the standard normal draw, so the
normal sample with mean bptt and sd 5 is bptt + 5 * z. -/
def sampledSeqLen (bpttArg u z : ℚ) : ℤ :=
  let bptt := if u < 95 / 100 then bpttArg else bpttArg / 2
  max 5 (truncTowardZero (bptt + 5 * z))

/-- Modelled from the spec: the sampling policy exactly as the claim states
it, with rounding to the nearest integer in place of truncation. -/
def specSeqLenRound (bpttArg u z : ℚ) : ℤ :=
  let base := if u < 95 / 100 then bpttArg else bpttArg / 2
  max 5 (round (base + 5 * z))

/-- The amended policy: base mixture as documented, then
max(5, trunc(Normal(mean=base, sd=5))) with truncation toward zero. -/
def specSeqLenTrunc (bpttArg u z : ℚ) : ℤ :=
  let base := if u < 95 / 100 then bpttArg else bpttArg / 2
  max 5 (truncTowardZero (base + 5 * z))

/-! ## Cursor wrapping and windowing (cross_lm.py 251-260) -/

/-- The wrap check of cross_lm.py lines 251-252 / 254-255 for one cursor:
if p + seq_len > L then the cursor is set to 0, else it is unchanged. -/
def wrapCursor (p seqLen L : ℕ) : ℕ := if p + seqLen > L then 0 else p

/-- The per-step wrap outcome for both language cursors
(cross_lm.py lines 251-256): each cursor is wrapped independently and the
corresponding reset is issued exactly when that cursor wraps. -/
structure WrapOutcome where
  src_p : ℕ
  trg_p : ℕ
  didResetSrc : Bool
  didResetTrg : Bool
  deriving DecidableEq

/-- cross_lm.py lines 251-256: wrap the source cursor and call reset_src()
when it wraps; wrap the target cursor and call reset_trg() when it wraps. -/
def wrapAndReset (src_p trg_p seqLen srcLen trgLen : ℕ) : WrapOutcome :=
  { src_p := wrapCursor src_p seqLen srcLen
    trg_p := wrapCursor trg_p seqLen trgLen
    didResetSrc := decide (src_p + seqLen > srcLen)
    didResetTrg := decide (trg_p + seqLen > trgLen) }

/-- Failure value of the windowing function. -/
inductive WindowError where
  | bounds
  deriving DecidableEq

/-- Modelled from the spec: the windowing function (get_batch of
utils/data.py, which is not under src/) returns the window descriptor
(cursor, seqLen) over a batched stream with the given column count, and
fails with a BoundsError when cursor + sampled_len + 1 > column count
(the target slice batched[:, cursor+1 : cursor+1+sampled_len] needs one
extra column). -/
def window (cols cursor seqLen : ℕ) : Except WindowError (ℕ × ℕ) :=
  if cursor + seqLen + 1 > cols then Except.error WindowError.bounds
  else Except.ok (cursor, seqLen)

/-! ## Language-model loss composition (mono_lm.py 255-264) -/

/-- Sum of squares of one row of a tensor. -/
def sqSumRow (r : List ℚ) : ℚ := (r.map (fun x => x * x)).sum

/-- Sum of squares of all entries of a (time-major) tensor. -/
def sqSum (h : List (List ℚ)) : ℚ := (h.map sqSumRow).sum

/-- Number of entries of a tensor. -/
def numel (h : List (List ℚ)) : ℕ := (h.map List.length).sum

/-- tensor.pow(2).mean(): the mean of the squares of all entries. -/
def meanSq (h : List (List ℚ)) : ℚ := sqSum h / (numel h : ℚ)

/-- Elementwise difference of two rows. -/
def rowSub (a b : List ℚ) : List ℚ := List.zipWith (fun x y => x - y) a b

/-- rnn_h[1:] - rnn_h[:-1]: the first difference along the time axis. -/
def tdiff (h : List (List ℚ)) : List (List ℚ) := List.zipWith rowSub h.tail h

/-- The Python slice l[-1:], keeping only the last element. -/
def lastSlice {α : Type} (l : List α) : List α := l.drop (l.length - 1)

/-- mono_lm.py lines 258-263: loss = raw_loss; if args.alpha: add the AR
terms alpha * h.pow(2).mean() for h in dropped_rnn_hs[-1:]; if args.beta:
add the TAR terms beta * (h[1:] - h[:-1]).pow(2).mean() for h in
rnn_hs[-1:]. Python float truthiness of alpha / beta is nonzeroness. -/
def lmLoss (alpha beta rawLoss : ℚ) (rnn_hs dropped_rnn_hs : List (List (List ℚ))) : ℚ :=
  let loss := rawLoss
  let loss := if alpha ≠ 0 then
      loss + ((lastSlice dropped_rnn_hs).map (fun h => alpha * meanSq h)).sum
    else loss
  let loss := if beta ≠ 0 then
      loss + ((lastSlice rnn_hs).map (fun h => beta * meanSq (tdiff h))).sum
    else loss
  loss

/-! ## Checkpoint save / load (cross_lm.py 29-44) -/

/-- Modelled from the spec: the GradientReversal transform (GradReverse of
utils/module.py, not under src/) is a stateless operation parameterized by
the scalar lambda, so it is embedded as the record of that scalar. -/
structure GradReverse where
  lambd : ℚ
  deriving DecidableEq

/-- The CrossLingualLanguageModelTrainer as seen by model_save / model_load:
the fields other than rev_grad and lambd are opaque handles (the two
language models, the discriminator, the two optimizers, the criterion and
the lexicon are never touched by saving or loading). -/
structure Trainer where
  src_lm : ℕ
  trg_lm : ℕ
  discriminator : ℕ
  lm_optimizer : ℕ
  dis_optimizer : ℕ
  criterion : ℕ
  lexicon : ℕ
  lambd : ℚ
  rev_grad : Option GradReverse
  deriving DecidableEq

/-- cross_lm.py model_save (lines 29-35): trainer.rev_grad is set to None,
the trainer is serialized in that state, and rev_grad is then rebuilt as
GradReverse(trainer.lambd). Returns (trainer after the call, serialized
snapshot); torch.save is modelled as recording the snapshot value. -/
def model_save (t : Trainer) : Trainer × Trainer :=
  let stripped : Trainer := { t with rev_grad := none }
  let snapshot := stripped
  ({ stripped with rev_grad := some { lambd := t.lambd } }, snapshot)

/-- cross_lm.py model_load (lines 38-44): torch.load is modelled as
returning the stored snapshot; rev_grad is then rebuilt as
GradReverse(trainer.lambd) from the persisted lambda. -/
def model_load (snapshot : Trainer) : Trainer :=
  { snapshot with rev_grad := some { lambd := snapshot.lambd } }

/-! ## Discriminator construction (cross_lm.py 198-199) -/

/-- Modelled from the spec: the Discriminator (class not under src/) is a
feed-forward classifier whose input dimensionality is stored at
construction time and never changed afterwards. -/
structure Discriminator where
  in_dim : ℤ
  n_hid : ℤ
  n_out : ℕ
  nlayers : ℕ
  deriving DecidableEq

/-- Discriminator construction as called at cross_lm.py line 199. -/
def mkDiscriminator (in_dim n_hid : ℤ) (n_out nlayers : ℕ) : Discriminator :=
  { in_dim := in_dim, n_hid := n_hid, n_out := n_out, nlayers := nlayers }

/-- cross_lm.py line 198: dis_in_dim = (nlayers - 1) * nhid + emsize if
args.tied else nlayers * nhid. -/
def dis_in_dim (tied : Bool) (nlayers nhid emsize : ℤ) : ℤ :=
  if tied then (nlayers - 1) * nhid + emsize else nlayers * nhid

/-! ## Best-checkpoint comparison (cross_lm.py 289-292) -/

/-- A machine float as the comparison at cross_lm.py line 289 sees it:
a finite value, one of the two infinities, or NaN. -/
inductive PFloat where
  | fin : ℚ → PFloat
  | inf : PFloat
  | ninf : PFloat
  | nan : PFloat
  deriving DecidableEq

/-- IEEE-754 strict less-than on such values: NaN compares false with
everything, +inf is below nothing, -inf is below every non-NaN other than
itself. -/
def pLt : PFloat → PFloat → Bool
  | PFloat.fin a, PFloat.fin b => decide (a < b)
  | PFloat.fin _, PFloat.inf => true
  | PFloat.ninf, PFloat.fin _ => true
  | PFloat.ninf, PFloat.inf => true
  | _, _ => false

/-- cross_lm.py lines 289-292: if val_loss[0] < best_val_loss[0] then
model_save is invoked and the tracker is overwritten, else nothing
happens. Returns (new best tracker, number of saves performed). -/
def bestCheckpointStep (val best : PFloat) (saves : ℕ) : PFloat × ℕ :=
  if pLt val best then (val, saves + 1) else (best, saves)

/-! ## Epoch loop with interrupt and post-training phase
(cross_lm.py 240-302, mono_lm.py 226-316) -/

/-- The training state visible to the interrupt claim: an abstract handle
for the in-memory model parameters and the last saved checkpoint, if any
(a fresh run starts with no checkpoint file on disk). -/
structure TrainState where
  model : ℕ
  ckpt : Option ℕ
  deriving DecidableEq

/-- Failure of the post-training checkpoint load. -/
inductive LoadError where
  | fileNotFound
  deriving DecidableEq

/-- Run n epoch bodies in sequence. -/
def runEpochs (body : TrainState → TrainState) : ℕ → TrainState → TrainState
  | 0, s => s
  | n + 1, s => runEpochs body n (body s)

/-- Number of epoch bodies that complete: all of them when no interrupt
arrives, and k of them when KeyboardInterrupt is raised at epoch boundary
k (the except handler at cross_lm.py 294-296 / mono_lm.py 302-304 catches
it, so the loop always exits in an orderly way). -/
def epochsExecuted (epochs : ℕ) (interruptAt : Option ℕ) : ℕ :=
  match interruptAt with
  | none => epochs
  | some k => min k epochs

/-- The try-block epoch loop with cooperative interruption. -/
def runEpochLoop (body : TrainState → TrainState) (epochs : ℕ)
    (interruptAt : Option ℕ) (s : TrainState) : TrainState :=
  runEpochs body (epochsExecuted epochs interruptAt) s

/-- The post-training phase (cross_lm.py line 302 / mono_lm.py line 310):
model_load(model_path) on the last saved checkpoint; opening the
checkpoint path fails when no save ever happened. -/
def postTraining (s : TrainState) : Except LoadError ℕ :=
  match s.ckpt with
  | none => Except.error LoadError.fileNotFound
  | some m => Except.ok m

/-- The tail of main: the guarded epoch loop followed by the post-training
checkpoint load. -/
def mainTail (body : TrainState → TrainState) (epochs : ℕ)
    (interruptAt : Option ℕ) (s : TrainState) : Except LoadError ℕ :=
  postTraining (runEpochLoop body epochs interruptAt s)

/-- An epoch body that saves a checkpoint of the current model. -/
def saveEveryEpoch : TrainState → TrainState :=
  fun s => { s with ckpt := some s.model }

/-! ## Learning-rate scaling in the monolingual loop (mono_lm.py 244-275) -/

/-- The optimizer state the learning-rate claim is about. -/
structure OptState where
  lr : ℚ
  deriving DecidableEq

/-- One iteration of mono_lm.py's inner loop as a transformer of the
stored learning rate (lines 245-246 and 275): lr2 =
optimizer.param_groups[0]['lr']; the stored rate is set to
lr2 * seq_len / bptt for the forward/backward and optimizer step, then
restored to lr2 before the iteration ends. Returns (state after the
iteration, rate in force during the optimizer step). -/
def lrAdjustedIter (o : OptState) (seqLen bptt : ℚ) : OptState × ℚ :=
  let lr2 := o.lr
  let duringStep : OptState := { lr := lr2 * seqLen / bptt }
  ({ duringStep with lr := lr2 }, duringStep.lr)

/-- Iterate the inner loop over a plan of (seq_len, bptt) pairs. -/
def iterateLr : OptState → List (ℚ × ℚ) → OptState
  | o, [] => o
  | o, (sl, b) :: rest => iterateLr (lrAdjustedIter o sl b).1 rest

/-! ## Helper lemmas -/

/-- The slice l[-1:] of a list ending in x is [x]. -/
theorem lastSlice_append {α : Type} (l : List α) (x : α) :
    lastSlice (l ++ [x]) = [x] := by
  unfold lastSlice
  have h : (l ++ [x]).length - 1 = l.length := by simp
  rw [h, List.drop_left]

/-- The window computation errors exactly when the precondition fails. -/
theorem window_error_iff (cols cursor seqLen : ℕ) :
    window cols cursor seqLen = Except.error WindowError.bounds ↔
      cols < cursor + seqLen + 1 := by
  unfold window
  split <;> simp_all

/-! ## Claim theorems -/

/-- C1 counterexample: at bptt = 70, uniform draw u = 0 (so base = 70) and
standard normal draw z = -631/50 (so the normal sample is 6.9), the code
samples length 6 (truncation toward zero) while the claimed policy with
rounding gives 7, so the sampled length does not equal
max(5, round(Normal(mean=base, sd=5))). -/
theorem c1_counterexample :
    sampledSeqLen 70 0 (-631/50) = 6 ∧ specSeqLenRound 70 0 (-631/50) = 7 := by
  constructor
  · norm_num [sampledSeqLen, truncTowardZero]
  · norm_num [specSeqLenRound, round_eq]

/-- C1 (amended): for every bptt, uniform draw u and standard normal draw
z, the sampled sequence length equals max(5, trunc(Normal(mean=base,
sd=5))) where trunc truncates toward zero and base = bptt when u < 0.95,
else bptt / 2; in particular every sampled length is at least 5. -/
theorem c1_seq_len_policy (bpttArg u z : ℚ) :
    sampledSeqLen bpttArg u z = specSeqLenTrunc bpttArg u z ∧
    5 ≤ sampledSeqLen bpttArg u z :=
  ⟨rfl, le_max_left 5 _⟩

/-- C2 counterexample: with a batched stream of 100 columns, cursor 30 and
sampled length 70, the wrap check does not fire (30 + 70 = 100 does not
exceed 100), yet the windowing precondition 30 + 70 + 1 <= 100 fails, so
the BoundsError branch is reached from the training loop. -/
theorem c2_counterexample :
    wrapCursor 30 70 100 = 30 ∧
    window 100 (wrapCursor 30 70 100) 70 = Except.error WindowError.bounds := by
  constructor
  · rfl
  · rfl

/-- C2 (amended): after the wrap check, the cursor satisfies
cursor + sampled_len <= column count whenever sampled_len <= column count;
the stronger windowing precondition cursor + sampled_len + 1 <= column
count can still fail, and the BoundsError branch is reached exactly when
cursor + sampled_len equals the column count. -/
theorem c2_wrap_bounds (p seqLen L : ℕ) (h : seqLen ≤ L) :
    wrapCursor p seqLen L + seqLen ≤ L ∧
    (window L (wrapCursor p seqLen L) seqLen = Except.error WindowError.bounds ↔
      wrapCursor p seqLen L + seqLen = L) := by
  unfold wrapCursor
  split
  · constructor
    · omega
    · rw [window_error_iff]
      omega
  · constructor
    · omega
    · rw [window_error_iff]
      omega

/-- C2 witness at cursor 10, sampled length 70, 100 columns. -/
theorem c2_wrap_bounds_witness :
    (70 : ℕ) ≤ 100 ∧
    (wrapCursor 10 70 100 + 70 ≤ 100 ∧
      (window 100 (wrapCursor 10 70 100) 70 = Except.error WindowError.bounds ↔
        wrapCursor 10 70 100 + 70 = 100)) :=
  ⟨by decide, c2_wrap_bounds 10 70 100 (by decide)⟩

/-- C3: with alpha and beta nonzero the per-step language-model loss is the
raw negative log-likelihood plus alpha times the mean squared magnitude of
the last layer's dropout-affected output plus beta times the mean squared
magnitude of the time first-difference of the last layer's pre-dropout
output, depending only on the last recurrent layer; alpha = 0 removes
exactly the AR term and beta = 0 removes exactly the TAR term. -/
theorem c3_loss_composition (alpha beta raw : ℚ)
    (hs ds : List (List (List ℚ))) (hl dl : List (List ℚ))
    (ha : alpha ≠ 0) (hb : beta ≠ 0) :
    lmLoss alpha beta raw (hs ++ [hl]) (ds ++ [dl])
      = raw + alpha * meanSq dl + beta * meanSq (tdiff hl) ∧
    lmLoss 0 beta raw (hs ++ [hl]) (ds ++ [dl])
      = raw + beta * meanSq (tdiff hl) ∧
    lmLoss alpha 0 raw (hs ++ [hl]) (ds ++ [dl])
      = raw + alpha * meanSq dl := by
  refine ⟨?_, ?_, ?_⟩ <;>
    simp [lmLoss, lastSlice_append, ha, hb]

/-- C3 witness: alpha = 2, beta = 3, raw loss 5, one recurrent layer with
pre-dropout output [[1],[4]] and dropout-affected output [[2,2]]. -/
theorem c3_loss_composition_witness :
    (2 : ℚ) ≠ 0 ∧ (3 : ℚ) ≠ 0 ∧
    (lmLoss 2 3 5 ([] ++ [[[1],[4]]]) ([] ++ [[[2,2]]])
        = 5 + 2 * meanSq [[2,2]] + 3 * meanSq (tdiff [[1],[4]]) ∧
      lmLoss 0 3 5 ([] ++ [[[1],[4]]]) ([] ++ [[[2,2]]])
        = 5 + 3 * meanSq (tdiff [[1],[4]]) ∧
      lmLoss 2 0 5 ([] ++ [[[1],[4]]]) ([] ++ [[[2,2]]])
        = 5 + 2 * meanSq [[2,2]]) :=
  ⟨by norm_num, by norm_num,
    c3_loss_composition 2 3 5 [] [] [[1],[4]] [[2,2]] (by norm_num) (by norm_num)⟩

/-- C4: for every snapshot from which model_load returns a trainer, the
returned trainer's rev_grad is a freshly constructed GradReverse carrying
the lambda persisted in the checkpoint; the snapshot written by model_save
stores no reversal object at all (rev_grad is None there, and lambda is
persisted explicitly), so the loaded rev_grad is never the reversal object
deserialized from the saving run. -/
theorem c4_load_rebuilds_rev_grad (snapshot t : Trainer) :
    (model_load snapshot).rev_grad = some { lambd := snapshot.lambd } ∧
    (model_save t).2.rev_grad = none ∧
    (model_save t).2.lambd = t.lambd ∧
    (model_load (model_save t).2).rev_grad = some { lambd := t.lambd } :=
  ⟨rfl, rfl, rfl, rfl⟩

/-- C5: a validation combined loss of +inf or NaN is never treated as an
improvement by the best-checkpoint comparison: model_save is not invoked
(the save count is unchanged) and the best-loss tracker keeps its prior
value, whatever that prior value is. -/
theorem c5_no_improvement_on_inf_nan (best : PFloat) (saves : ℕ) :
    bestCheckpointStep PFloat.inf best saves = (best, saves) ∧
    bestCheckpointStep PFloat.nan best saves = (best, saves) := by
  cases best <;> simp [bestCheckpointStep, pLt]

/-- C6 counterexample: interrupting at the very first epoch boundary of a
fresh run (no checkpoint ever saved) makes the post-training checkpoint
load fail: the program crashes instead of reporting. -/
theorem c6_counterexample :
    mainTail id 3 (some 0) { model := 7, ckpt := none }
      = Except.error LoadError.fileNotFound := rfl

/-- C6 (amended): for every interrupt point in the epoch loop, the program
exits the loop in an orderly way and proceeds to the post-training phase;
provided at least one checkpoint was saved before the interrupt, that
phase loads the last saved checkpoint and completes without crashing. -/
theorem c6_interrupt_clean_shutdown (body : TrainState → TrainState)
    (epochs k : ℕ) (s : TrainState) (c : ℕ)
    (h : (runEpochLoop body epochs (some k) s).ckpt = some c) :
    mainTail body epochs (some k) s = Except.ok c := by
  unfold mainTail postTraining
  rw [h]

/-- C6 witness: interrupt after one epoch of a body that checkpoints every
epoch; the post-training phase loads that checkpoint. -/
theorem c6_interrupt_clean_shutdown_witness :
    (runEpochLoop saveEveryEpoch 3 (some 1) { model := 7, ckpt := none }).ckpt
        = some 7 ∧
    mainTail saveEveryEpoch 3 (some 1) { model := 7, ckpt := none }
        = Except.ok 7 :=
  ⟨rfl, c6_interrupt_clean_shutdown saveEveryEpoch 3 1 { model := 7, ckpt := none } 7 rfl⟩

/-- C7: at every step, reset_src() is called if and only if the source
cursor wraps at that step, reset_trg() if and only if the target cursor
wraps, and both recurrent states are reset in the same step exactly when
both cursors wrap simultaneously. -/
theorem c7_reset_iff_wrap (src_p trg_p seqLen srcLen trgLen : ℕ) :
    ((wrapAndReset src_p trg_p seqLen srcLen trgLen).didResetSrc = true ↔
      srcLen < src_p + seqLen) ∧
    ((wrapAndReset src_p trg_p seqLen srcLen trgLen).didResetTrg = true ↔
      trgLen < trg_p + seqLen) ∧
    (((wrapAndReset src_p trg_p seqLen srcLen trgLen).didResetSrc = true ∧
        (wrapAndReset src_p trg_p seqLen srcLen trgLen).didResetTrg = true) ↔
      (srcLen < src_p + seqLen ∧ trgLen < trg_p + seqLen)) := by
  simp [wrapAndReset]

/-- C8: the discriminator's input dimensionality is fixed at construction
by the tied flag: (nlayers - 1) * nhid + emsize when embeddings are tied
and nlayers * nhid when untied; at the default configuration (tied,
nlayers = 3, nhid = 1150, emsize = 400) it is 2700. -/
theorem c8_dis_in_dim (tied : Bool) (nlayers nhid emsize dis_nhid : ℤ)
    (dis_nlayers : ℕ) :
    (mkDiscriminator (dis_in_dim tied nlayers nhid emsize) dis_nhid 2 dis_nlayers).in_dim
      = (if tied then (nlayers - 1) * nhid + emsize else nlayers * nhid) ∧
    (mkDiscriminator (dis_in_dim true 3 1150 400) 1024 2 2).in_dim = 2700 :=
  ⟨rfl, by decide⟩

/-- C9: within one iteration of the monolingual loop the stored learning
rate is lr * seq_len / bptt during the forward/backward and optimizer
step, it is restored to its prior value before the iteration ends, and
over any sequence of iterations the stored rate at the start of every
iteration equals the initial rate. -/
theorem c9_lr_restored (o : OptState) (seqLen bptt : ℚ) (plan : List (ℚ × ℚ)) :
    (lrAdjustedIter o seqLen bptt).1.lr = o.lr ∧
    (lrAdjustedIter o seqLen bptt).2 = o.lr * seqLen / bptt ∧
    iterateLr o plan = o := by
  refine ⟨rfl, rfl, ?_⟩
  induction plan generalizing o with
  | nil => rfl
  | cons p rest ih =>
      cases p with
      | mk sl b =>
          show iterateLr (lrAdjustedIter o sl b).1 rest = o
          have h1 : (lrAdjustedIter o sl b).1 = o := rfl
          rw [h1, ih]

/-- C10: after model_save returns, the in-memory trainer is usable again:
its rev_grad is a GradReverse built from trainer.lambd (it is None only in
the serialized snapshot), and every other field of the trainer is exactly
as before the call. -/
theorem c10_save_frame (t : Trainer) :
    (model_save t).1.rev_grad = some { lambd := t.lambd } ∧
    (model_save t).2.rev_grad = none ∧
    (model_save t).1.src_lm = t.src_lm ∧
    (model_save t).1.trg_lm = t.trg_lm ∧
    (model_save t).1.discriminator = t.discriminator ∧
    (model_save t).1.lm_optimizer = t.lm_optimizer ∧
    (model_save t).1.dis_optimizer = t.dis_optimizer ∧
    (model_save t).1.criterion = t.criterion ∧
    (model_save t).1.lexicon = t.lexicon ∧
    (model_save t).1.lambd = t.lambd :=
  ⟨rfl, rfl, rfl, rfl, rfl, rfl, rfl, rfl, rfl, rfl⟩

end UXSenti
